import Mathlib

/-!
Verification development for the study-notifier question parser
(`fetch_data.py`).

The Python program is shallowly embedded:

* JSON dictionaries with possibly-missing keys become structures with
  `Option` fields; a `dict.get(k, default)` becomes `Option.getD`,
  while a bare `dict[k]` subscript on a possibly-missing key is an
  exception, modelled with `Except` where the source wraps the access
  in `try/except` (the handler maps every exception to `False`).
* Python strings are `String`; `len`, slicing, `count` and `in` act on
  code points, modelled on `String.data : List Char`.  `str.upper` /
  `str.strip` are modelled ASCII-wise (`Char.toUpper`, ASCII blanks),
  which is faithful on every string the claims exercise.
* The network fetch in `parse_group4_questions` (lines 320-350) is the
  one I/O boundary: its outcome is a parameter (`AccessOutcome`),
  either an exception with a message or the fetched grid plus
  formatting document.  Timestamps (`datetime.now`) and the webhook
  POST itself carry no decision logic and are elided; the Discord
  payload construction (`send_discord_notification` lines 152-272) is
  embedded as the list of embeds it builds.
-/

/-- Python list-of-codepoints test for `needle` being an initial
segment of `hay` (used to build substring membership). -/
def startsWithL : List Char → List Char → Bool
  | [], _ => true
  | _ :: _, [] => false
  | a :: as, b :: bs => a == b && startsWithL as bs

/-- Python substring membership `needle in hay`, on code points. -/
def containsSubL : List Char → List Char → Bool
  | [], needle => startsWithL needle []
  | c :: t, needle => startsWithL needle (c :: t) || containsSubL t needle

/-- Blank characters stripped by `str.strip` (ASCII model). -/
def pyIsSpace (c : Char) : Bool :=
  c == ' ' || c == '\t' || c == '\n' || c == '\r'

/-- Python `str.strip`: drop blanks from both ends. -/
def stripL (l : List Char) : List Char :=
  ((l.dropWhile pyIsSpace).reverse.dropWhile pyIsSpace).reverse

/-- Python `str(x).strip()` on a string value. -/
def pyStrip (s : String) : String := String.mk (stripL s.data)

/-- Python `str.upper` (ASCII model). -/
def pyUpper (s : String) : String := String.mk (s.data.map Char.toUpper)

/-- Python `text.count('~~')`: number of non-overlapping occurrences
of the two-character sequence `~~`, scanning left to right. -/
def tildeCount : List Char → Nat
  | '~' :: '~' :: rest => tildeCount rest + 1
  | _ :: rest => tildeCount rest
  | [] => 0

/-- Concatenation of a list of strings (Python `+=` accumulation). -/
def joinStr : List String → String
  | [] => ""
  | s :: rest => s ++ joinStr rest

/-- Python `l[-n:]`: the last `n` elements of a list. -/
def lastN (n : Nat) (l : List α) : List α := l.drop (l.length - n)

/-! ## The formatting document (Google Sheets `includeGridData` reply)

Nested JSON, every level possibly missing, mirroring exactly the keys
`check_cell_strikethrough` touches. -/

/-- A `textFormat` object; the `strikethrough` key may be absent. -/
structure TextFormat where
  strikethrough : Option Bool
deriving DecidableEq, Repr

/-- An `effectiveFormat` / `userEnteredFormat` object. -/
structure CellFormat where
  textFormat : Option TextFormat
deriving DecidableEq, Repr

/-- One entry of `textFormatRuns`; `run.get('format', {})`. -/
structure FormatRun where
  format : Option TextFormat
deriving DecidableEq, Repr

/-- One per-cell record of `rowData[i].values`. -/
structure CellData where
  effectiveFormat : Option CellFormat
  userEnteredFormat : Option CellFormat
  textFormatRuns : List FormatRun
deriving DecidableEq, Repr

/-- One `rowData` entry; `row.get('values', [])`. -/
structure RowData where
  values : List CellData
deriving DecidableEq, Repr

/-- One `data` entry (grid data block). -/
structure GridData where
  rowData : List RowData
deriving DecidableEq, Repr

/-- A `properties` object; `title` may be absent (a bare
`sheet['properties']['title']` subscript on it raises). -/
structure SheetProperties where
  title : Option String
deriving DecidableEq, Repr

/-- One element of the document's `sheets` list; the `properties` key
may be absent. -/
structure Sheet where
  properties : Option SheetProperties
  data : List GridData
deriving DecidableEq, Repr

/-- The whole formatting document; `formatting_data.get('sheets', [])`. -/
structure FormattingData where
  sheets : List Sheet
deriving DecidableEq, Repr

/-- Value of `sheet['properties']['title']` when both subscripts
succeed; `none` means the access raises (source line 78). -/
def sheetTitle (s : Sheet) : Option String :=
  match s.properties with
  | none => none
  | some p => p.title

/-- `tf.get('strikethrough', False)` on a possibly-missing
`textFormat` object. -/
def strikeOf (tf : Option TextFormat) : Bool :=
  match tf with
  | none => false
  | some t => t.strikethrough.getD false

/-- Strikethrough flag of `effectiveFormat` / `userEnteredFormat`
via the chained `.get(..., {})` lookups (source lines 92-102). -/
def fmtStrike (f : Option CellFormat) : Bool :=
  match f with
  | none => false
  | some cf => strikeOf cf.textFormat

/-- Strikethrough flag of one `textFormatRuns` entry (lines 107-110). -/
def runFlag (r : FormatRun) : Bool := strikeOf r.format

/-- Body of `check_cell_strikethrough` once the sheet is located
(source lines 79-110): first grid-data block only, bounds-checked row
and column, then the three sources with early return. -/
def cellBody (s : Sheet) (row_index col_index : Nat) : Bool :=
  match s.data with
  | [] => false
  | g :: _ =>
    match g.rowData.get? row_index with
    | none => false
    | some row =>
      match row.values.get? col_index with
      | none => false
      | some cell =>
        if fmtStrike cell.effectiveFormat then true
        else if fmtStrike cell.userEnteredFormat then true
        else cell.textFormatRuns.any runFlag

/-- The `for sheet in sheets` loop of `check_cell_strikethrough`
(lines 77-112): `.error` models an exception escaping the loop (the
`sheet['properties']['title']` subscript on a malformed entry), `.ok`
a normal return (`break` after the matching sheet, or loop end). -/
def checkLoop (sheet_name : String) (row_index col_index : Nat) :
    List Sheet → Except Unit Bool
  | [] => .ok false
  | s :: rest =>
    match sheetTitle s with
    | none => .error ()
    | some t =>
      if t = sheet_name then .ok (cellBody s row_index col_index)
      else checkLoop sheet_name row_index col_index rest

/-- `check_cell_strikethrough` (source lines 72-118); the surrounding
`try/except` turns any exception into `False`. -/
def check_cell_strikethrough (formatting_data : FormattingData)
    (sheet_name : String) (row_index col_index : Nat) : Bool :=
  match checkLoop sheet_name row_index col_index formatting_data.sheets with
  | .ok b => b
  | .error _ => false

/-! ## Text marker analyzer -/

/-- A Python value passed as `text`: a string, or anything else
(`isinstance(text, str)` fails). -/
inductive PyText where
  | ofStr (s : String)
  | nonString
deriving DecidableEq, Repr

/-- The fixed marker vocabulary (source lines 128-133; the two glyph
entries are the literal byte sequences of the source file). -/
def completion_indicators : List String :=
  ["[DONE]", "[COMPLETED]", "[FINISHED]", "[COMPLETE]",
   "‚úì", "‚úó", "DONE:", "COMPLETED:", "FINISHED:",
   "(DONE)", "(COMPLETED)", "(FINISHED)",
   "- DONE", "- COMPLETED", "- FINISHED"]

/-- `analyze_text_with_manual_indicators` (source lines 120-143). -/
def analyze_text_with_manual_indicators (text : PyText) : Bool :=
  match text with
  | .nonString => false
  | .ofStr s =>
    if s = "" then false
    else
      let text_upper := pyStrip (pyUpper s)
      if completion_indicators.any
          (fun ind => containsSubL text_upper.data ind.data) then true
      else if 2 ≤ tildeCount s.data then true
      else false

/-! ## Question extractor (`parse_group4_questions`) -/

/-- One question record (source lines 397-404). -/
structure QuestionData where
  row_number : Nat
  text : String
  is_crossed_out : Bool
  formatting_source : String
deriving DecidableEq, Repr

/-- The aggregate result dictionary.  Error results (lines 310-318,
330-338, 342-350, 363-371) carry only `status`, `message`,
`done_questions`, `todo_questions`, `total_questions` and
`has_new_questions`; the keys that appear only in the success
dictionary (lines 416-428) are `Option` fields, `none` meaning the
key is absent.  The `timestamp` key (always `datetime.now()`) is
elided. -/
structure AggregateResult where
  status : String
  message : Option String
  group4_column_index : Option Nat
  total_questions : Nat
  done_count : Option Nat
  todo_count : Option Nat
  has_new_questions : Bool
  done_questions : List QuestionData
  todo_questions : List QuestionData
  all_questions : Option (List QuestionData)
deriving DecidableEq, Repr

/-- The common shape of the four error dictionaries of
`parse_group4_questions`. -/
def errorResult (msg : String) : AggregateResult :=
  { status := "error", message := some msg, group4_column_index := none,
    total_questions := 0, done_count := none, todo_count := none,
    has_new_questions := false, done_questions := [], todo_questions := [],
    all_questions := none }

/-- Construction of one `question_data` record (source lines 386-404):
the formatting inspector first, the text analyzer only as fallback,
and an independent second inspector call for the provenance tag. -/
def mkRecord (formatting_data : FormattingData) (col row_index : Nat)
    (cell_content : String) : QuestionData :=
  let hs := check_cell_strikethrough formatting_data "Questions" row_index col
  let has_strikethrough :=
    if hs then hs
    else analyze_text_with_manual_indicators (.ofStr cell_content)
  { row_number := row_index + 1,
    text := pyStrip cell_content,
    is_crossed_out := has_strikethrough,
    formatting_source :=
      if check_cell_strikethrough formatting_data "Questions" row_index col
      then "api_formatting" else "manual_indicators" }

/-- The data-row loop (source lines 378-406): `rows` is
`values[row_index:]` and the counter starts at the first data row. -/
def rowRecords (formatting_data : FormattingData) (col : Nat) :
    List (List String) → Nat → List QuestionData
  | [], _ => []
  | row :: rest, row_index =>
    (match row.get? col with
     | some cell =>
       if cell ≠ "" ∧ pyStrip cell ≠ "" then
         [mkRecord formatting_data col row_index cell]
       else []
     | none => []) ++ rowRecords formatting_data col rest (row_index + 1)

/-- Header scan (source lines 356-359): first header cell that is
truthy and contains the substring `Group4`. -/
def findG4 : List String → Nat → Option Nat
  | [], _ => none
  | header :: rest, i =>
    if header ≠ "" ∧ containsSubL header.data "Group4".data then some i
    else findG4 rest (i + 1)

/-- Column resolution, row iteration and result assembly
(source lines 352-430), after the data has been fetched. -/
def extractCore (values : List (List String))
    (formatting_data : FormattingData) : AggregateResult :=
  match findG4 (values.headD []) 0 with
  | none => errorResult "Group 4 column not found"
  | some col =>
    let group4_data := rowRecords formatting_data col (values.drop 1) 1
    let done_questions := group4_data.filter (fun q => q.is_crossed_out)
    let todo_questions := group4_data.filter (fun q => !q.is_crossed_out)
    { status := "success", message := none,
      group4_column_index := some (col + 1),
      total_questions := group4_data.length,
      done_count := some done_questions.length,
      todo_count := some todo_questions.length,
      has_new_questions := decide (0 < todo_questions.length),
      done_questions := done_questions,
      todo_questions := todo_questions,
      all_questions := some group4_data }

/-- Outcome of the spreadsheet access (source lines 320-350): either
some exception escaped `setup_google_services` / the fetch (caught at
line 340), or a value grid plus formatting document came back.  An
empty grid also covers the `(None, None)` reply of
`get_sheet_data_with_formatting`, since Python `not values` holds for
both `None` and `[]`. -/
inductive AccessOutcome where
  | raised (msg : String)
  | fetched (values : List (List String)) (formatting_data : FormattingData)

/-- Python truthiness of the credentials argument (`None` and the
empty string are falsy). -/
def pyTruthy : Option String → Bool
  | none => false
  | some s => !(s == "")

/-- `parse_group4_questions` (source lines 306-430) with the network
boundary abstracted into `outcome`. -/
def parse_group4_questions (credentials_json : Option String)
    (outcome : AccessOutcome) : AggregateResult :=
  if !pyTruthy credentials_json then
    errorResult "Google credentials required for formatting detection"
  else
    match outcome with
    | .raised msg => errorResult ("Error accessing sheet: " ++ msg)
    | .fetched values formatting_data =>
      if values = [] then errorResult "No data found in Questions sheet"
      else extractCore values formatting_data

/-! ## Notification composer (`send_discord_notification`)

Only the embed construction (source lines 152-267) is embedded: the
webhook POST, the `@here` content line and the `timestamp`/`footer`
metadata carry no decision logic.  Success results produced by the
extractor always carry the `done_count`/`todo_count` keys, so the
success-branch subscripts on them are modelled with `Option.getD 0`
where the value only feeds a display string. -/

/-- One named text field of an embed. -/
structure EmbedField where
  name : String
  value : String
  inlineFlag : Bool
deriving DecidableEq, Repr

/-- One Discord embed (title and description optional). -/
structure Embed where
  title : Option String
  color : Nat
  description : Option String
  fields : List EmbedField
deriving DecidableEq, Repr

/-- Color selection (source lines 153-161).  The third test is
`result['todo_count'] == 0`; every result reaching it from the parser
carries the key, modelled as comparison with `some 0`. -/
def chooseColor (result : AggregateResult) : Nat :=
  if result.status ≠ "success" then 0xFF0000
  else if result.has_new_questions then 0xFF9900
  else if result.todo_count = some 0 then 0x00FF00
  else 0x0099FF

/-- `q['text'][:60] + ('...' if len(q['text']) > 60 else '')`
(source line 201). -/
def strTrunc (t : String) : String :=
  String.mk (t.data.take 60) ++ (if 60 < t.data.length then "..." else "")

/-- The `done_text` accumulation over the last three done entries
(source lines 199-202). -/
def doneTextOf (result : AggregateResult) : String :=
  joinStr ((lastN 3 result.done_questions).map
    (fun q => "~~" ++ strTrunc q.text ++ "~~\n"))

/-- The main embed (source lines 166-219). -/
def composeMain (result : AggregateResult) : Embed :=
  if result.status = "success" then
    let status_emoji :=
      if result.has_new_questions then "üÜï"
      else if result.todo_count = some 0 then "‚úÖ"
      else "üìä"
    let summaryField : EmbedField :=
      { name := "üìä Summary",
        value := "**Total Questions:** " ++ toString result.total_questions
          ++ "\n**‚úÖ Done:** "
          ++ toString (result.done_count.getD 0)
          ++ "\n**üìù Todo:** "
          ++ toString (result.todo_count.getD 0),
        inlineFlag := true }
    let alertFields : List EmbedField :=
      if result.has_new_questions then
        [{ name := "üö® Alert",
           value := "**" ++ toString (result.todo_count.getD 0)
             ++ " question(s) need attention!**",
           inlineFlag := false }]
      else []
    let doneFields : List EmbedField :=
      if result.done_questions ≠ [] then
        let done_text := doneTextOf result
        [{ name := "‚úÖ Recently Completed",
           value := if done_text ≠ "" then done_text else "None",
           inlineFlag := false }]
      else []
    { title := some "üìã Group 4 Questions Update",
      color := chooseColor result,
      description := some (status_emoji ++ " **Status Update**"),
      fields := alertFields ++ [summaryField] ++ doneFields }
  else
    { title := some "üìã Group 4 Questions Update",
      color := chooseColor result,
      description := some "‚ùå **Error occurred**",
      fields := [{ name := "Error Message",
                   value := result.message.getD "Unknown error",
                   inlineFlag := false }] }

/-- `question_line = f"{i}. {q['text']}\n"` (source line 230). -/
def todoLine (i : Nat) (q : QuestionData) : String :=
  toString i ++ ". " ++ q.text ++ "\n"

/-- A todo-overflow embed (source lines 235-244 / 257-266). -/
def mkTodoEmbed (color : Nat) (fieldName text : String) : Embed :=
  { title := none, color := color, description := none,
    fields := [{ name := fieldName, value := text, inlineFlag := false }] }

/-- The todo-packing loop (source lines 225-267): running text,
1-based entry counter and block counter; a block is flushed when the
next numbered line would push the text past 1000 characters, and the
remainder is flushed after the loop under a title that shows the
block counter when more than one block was needed, otherwise the
total todo count. -/
def packTodo (color todo_count : Nat) :
    List QuestionData → Nat → String → Nat → List Embed
  | [], _, todo_text, embed_count =>
    if todo_text ≠ "" then
      [mkTodoEmbed color
        (if 1 < embed_count then
          "üìù Todo Questions (" ++ toString embed_count ++ ")"
         else
          "üìù Todo Questions (" ++ toString todo_count ++ ")")
        todo_text]
    else []
  | q :: rest, i, todo_text, embed_count =>
    let question_line := todoLine i q
    if 1000 < (todo_text ++ question_line).data.length then
      mkTodoEmbed color
        ("üìù Todo Questions (" ++ toString embed_count ++ ")")
        todo_text
        :: packTodo color todo_count rest (i + 1) question_line (embed_count + 1)
    else
      packTodo color todo_count rest (i + 1) (todo_text ++ question_line) embed_count

/-- The todo embeds appended for a success result (lines 224-267). -/
def todoEmbeds (result : AggregateResult) : List Embed :=
  packTodo (chooseColor result) (result.todo_count.getD 0)
    result.todo_questions 1 "" 1

/-- The full embed list sent to the webhook (lines 163-272). -/
def send_discord_embeds (result : AggregateResult) : List Embed :=
  composeMain result ::
    (if result.status = "success" ∧ result.todo_questions ≠ [] then
      todoEmbeds result
     else [])

/-! ## Statement vocabulary (spec-side definitions)

These are not translations of the source; they name the places and
properties the claims quantify over, to be compared with the source
translations above. -/

/-- The cell of a sheet entry at a bounds-checked coordinate of its
first grid block, when every lookup succeeds. -/
def locCell (s : Sheet) (row_index col_index : Nat) : Option CellData :=
  match s.data with
  | [] => none
  | g :: _ =>
    (g.rowData.get? row_index).bind (fun row => row.values.get? col_index)

/-- The cell `check_cell_strikethrough` would examine: first grid
block of the first sheet carrying the wanted title, bounds-checked; or
`none` when the scan raises (malformed entry before or at the match),
the sheet is absent, or an index is out of bounds. -/
def cellAt (sheet_name : String) (row_index col_index : Nat) :
    List Sheet → Option CellData
  | [] => none
  | s :: rest =>
    match sheetTitle s with
    | none => none
    | some t =>
      if t = sheet_name then locCell s row_index col_index
      else cellAt sheet_name row_index col_index rest

/-- A cell carries the strikethrough signal in at least one of the
three sources. -/
def cellFlag (cell : CellData) : Bool :=
  fmtStrike cell.effectiveFormat || fmtStrike cell.userEnteredFormat
    || cell.textFormatRuns.any runFlag

/-- Truncation as the spec words it: shortened to 60 characters plus
an ellipsis marker exactly when longer than 60; unmodified otherwise. -/
def truncSpec (t : String) : String :=
  if 60 < t.data.length then String.mk (t.data.take 60) ++ "..." else t

/-- Every numbered todo line from position `i` on fits the
1000-character ceiling on its own. -/
def linesOK : Nat → List QuestionData → Bool
  | _, [] => true
  | i, q :: rest =>
    decide ((todoLine i q).data.length ≤ 1000) && linesOK (i + 1) rest

/-- Concatenation of all field texts of a list of embeds. -/
def joinVals (embeds : List Embed) : String :=
  joinStr (embeds.map (fun e => joinStr (e.fields.map (fun f => f.value))))

/-- Concatenation of the numbered todo lines from position `i` on. -/
def linesFrom : Nat → List QuestionData → String
  | _, [] => ""
  | i, q :: rest => todoLine i q ++ linesFrom (i + 1) rest

/-! ## Concrete sample inputs for witnesses and counterexamples -/

/-- An empty formatting document (`{}`-like reply). -/
def emptyDoc : FormattingData := ⟨[]⟩

/-- A cell whose effective format carries the strikethrough flag and
whose other sources are missing. -/
def strikedCell : CellData :=
  { effectiveFormat := some { textFormat := some { strikethrough := some true } },
    userEnteredFormat := none, textFormatRuns := [] }

/-- A well-formed document for the `Questions` sheet whose data row 1,
column 0 is struck through. -/
def docQStrike : FormattingData :=
  ⟨[{ properties := some { title := some "Questions" },
      data := [{ rowData := [{ values := [] }, { values := [strikedCell] }] }] }]⟩

/-- A malformed document: the only sheet entry has no `properties`
key, although its grid data even carries a struck cell at (0, 0). -/
def docBadProps : FormattingData :=
  ⟨[{ properties := none,
      data := [{ rowData := [{ values := [strikedCell] }] }] }]⟩

/-- A well-formed document with the struck cell at (0, 0). -/
def docEffOnly : FormattingData :=
  ⟨[{ properties := some { title := some "Questions" },
      data := [{ rowData := [{ values := [strikedCell] }] }] }]⟩

/-- A document flagging rows 1 and 2 of column 0 of `Questions`. -/
def docTwoDone : FormattingData :=
  ⟨[{ properties := some { title := some "Questions" },
      data := [{ rowData := [{ values := [] }, { values := [strikedCell] },
                             { values := [strikedCell] }] }] }]⟩

/-- A header row with no cell containing `Group4`. -/
def valsNoG4 : List (List String) := [["Alpha", "Beta"]]

/-- A small grid with two unfinished entries. -/
def valsTwoTodo : List (List String) := [["Group4"], ["alpha"], ["beta"]]

/-- A grid exercising substring column match, trimming, an empty cell
and a manual strikethrough marker. -/
def valsMixed : List (List String) :=
  [["xGroup4y"], ["  hello  "], [""], ["~~a~~ ~~b~~"]]

/-- A 1200-character cell text. -/
def bigCellText : String := String.mk (List.replicate 1200 'a')

/-- A grid whose single todo entry is 1200 characters long. -/
def valsBigTodo : List (List String) := [["Group4"], [bigCellText]]

/-- A 75-character done text and a 40-character done text under a
`Group4` header (to be combined with `docTwoDone`). -/
def valsTwoDone : List (List String) :=
  [["Group4"], [String.mk (List.replicate 75 'x')],
   [String.mk (List.replicate 40 'y')]]

/-! ## Helper lemmas -/

/-- Rebuilding a string from its code points is the identity. -/
theorem strMk_data (s : String) : String.mk s.data = s := by
  cases s
  rfl

/-- A string is empty exactly when its code-point list is. -/
theorem str_eq_empty_iff (s : String) : s = "" ↔ s.data = [] := by
  constructor
  · intro h
    rw [h]
  · intro h
    cases s with
    | mk l =>
      have hl : l = [] := h
      rw [hl]

/-- The located-cell body of the inspector equals the safe-navigation
reading of the same lookups. -/
theorem cellBody_eq (s : Sheet) (row col : Nat) :
    cellBody s row col = (locCell s row col).elim false cellFlag := by
  obtain ⟨props, data⟩ := s
  cases data with
  | nil => rfl
  | cons g rest =>
    show (match g.rowData.get? row with
          | none => false
          | some r =>
            match r.values.get? col with
            | none => false
            | some cell =>
              if fmtStrike cell.effectiveFormat then true
              else if fmtStrike cell.userEnteredFormat then true
              else cell.textFormatRuns.any runFlag)
        = ((g.rowData.get? row).bind
            (fun r => r.values.get? col)).elim false cellFlag
    cases g.rowData.get? row with
    | none => rfl
    | some r =>
      show (match r.values.get? col with
            | none => false
            | some cell =>
              if fmtStrike cell.effectiveFormat then true
              else if fmtStrike cell.userEnteredFormat then true
              else cell.textFormatRuns.any runFlag)
          = (r.values.get? col).elim false cellFlag
      cases r.values.get? col with
      | none => rfl
      | some cell =>
        show (if fmtStrike cell.effectiveFormat then true
              else if fmtStrike cell.userEnteredFormat then true
              else cell.textFormatRuns.any runFlag) = cellFlag cell
        unfold cellFlag
        by_cases h1 : fmtStrike cell.effectiveFormat
        · simp [h1]
        · by_cases h2 : fmtStrike cell.userEnteredFormat
          · simp [h1, h2]
          · simp [h1, h2]

/-- The inspector's loop-with-exception scan agrees with the
safe-navigation cell lookup followed by the three-source check. -/
theorem checkLoop_eq (name : String) (row col : Nat) :
    ∀ sheets : List Sheet,
      (match checkLoop name row col sheets with
       | .ok b => b
       | .error _ => false)
        = (cellAt name row col sheets).elim false cellFlag := by
  intro sheets
  induction sheets with
  | nil => rfl
  | cons s rest ih =>
    simp only [checkLoop, cellAt]
    cases ht : sheetTitle s with
    | none => rfl
    | some t =>
      by_cases he : t = name
      · simp [he, cellBody_eq]
      · simpa [he] using ih

/-- `check_cell_strikethrough` characterised: it answers `cellFlag`
of the cell it can reach, and `false` when it cannot reach one. -/
theorem check_eq (doc : FormattingData) (name : String) (row col : Nat) :
    check_cell_strikethrough doc name row col
      = (cellAt name row col doc.sheets).elim false cellFlag := by
  unfold check_cell_strikethrough
  exact checkLoop_eq name row col doc.sheets

/-- The row-loop guard `cell_content and str(cell_content).strip()`
reduces to non-blank trimmed content (an empty cell trims to empty). -/
theorem guard_iff (cell : String) :
    (cell ≠ "" ∧ pyStrip cell ≠ "") ↔ pyStrip cell ≠ "" := by
  constructor
  · exact fun h => h.2
  · intro h
    refine ⟨?_, h⟩
    intro hc
    rw [hc] at h
    exact h rfl

/-- Membership characterisation of the data-row loop: a record is
produced exactly for an in-bounds, non-blank cell of some row, and is
the record built from that cell. -/
theorem mem_rowRecords (fd : FormattingData) (col : Nat) :
    ∀ (rows : List (List String)) (start : Nat) (q : QuestionData),
      q ∈ rowRecords fd col rows start ↔
        ∃ j row cell, rows.get? j = some row ∧ row.get? col = some cell ∧
          (cell ≠ "" ∧ pyStrip cell ≠ "") ∧ q = mkRecord fd col (start + j) cell := by
  intro rows
  induction rows with
  | nil =>
    intro start q
    simp [rowRecords]
  | cons row rest ih =>
    intro start q
    simp only [rowRecords, List.mem_append]
    constructor
    · rintro (h | h)
      · cases hc : row.get? col with
        | none =>
          rw [hc] at h
          simp at h
        | some cell =>
          rw [hc] at h
          have h2 : q ∈ (if cell ≠ "" ∧ pyStrip cell ≠ ""
              then [mkRecord fd col start cell] else []) := h
          by_cases hg : cell ≠ "" ∧ pyStrip cell ≠ ""
          · rw [if_pos hg] at h2
            simp only [List.mem_singleton] at h2
            refine ⟨0, row, cell, rfl, hc, hg, ?_⟩
            simpa using h2
          · rw [if_neg hg] at h2
            simp at h2
      · obtain ⟨j, row2, cell, h1, h2, h3, h4⟩ := (ih (start + 1) q).mp h
        refine ⟨j + 1, row2, cell, ?_, h2, h3, ?_⟩
        · simpa using h1
        · have harith : start + 1 + j = start + (j + 1) := by omega
          rw [harith] at h4
          exact h4
    · rintro ⟨j, row2, cell, h1, h2, h3, h4⟩
      cases j with
      | zero =>
        rw [List.get?_cons_zero] at h1
        injection h1 with h1
        subst h1
        left
        simp only [h2, if_pos h3, List.mem_singleton]
        simpa using h4
      | succ j =>
        right
        apply (ih (start + 1) q).mpr
        refine ⟨j, row2, cell, ?_, h2, h3, ?_⟩
        · simpa using h1
        · have harith : start + (j + 1) = start + 1 + j := by omega
          rw [harith] at h4
          exact h4

/-- Packing invariant: when every remaining numbered line fits the
ceiling and the running text does, every flushed block fits it. -/
theorem pack_le (color tc : Nat) :
    ∀ (qs : List QuestionData) (i : Nat) (t : String) (cnt : Nat),
      t.data.length ≤ 1000 → linesOK i qs = true →
      ∀ e ∈ packTodo color tc qs i t cnt, ∀ f ∈ e.fields,
        f.value.data.length ≤ 1000 := by
  intro qs
  induction qs with
  | nil =>
    intro i t cnt ht _ e he f hf
    simp only [packTodo] at he
    by_cases h : t ≠ ""
    · rw [if_pos h] at he
      simp only [List.mem_singleton] at he
      subst he
      simp only [mkTodoEmbed, List.mem_singleton] at hf
      subst hf
      exact ht
    · rw [if_neg h] at he
      simp at he
  | cons q rest ih =>
    intro i t cnt ht hok e he f hf
    simp only [linesOK, Bool.and_eq_true, decide_eq_true_eq] at hok
    obtain ⟨hline, hrest⟩ := hok
    simp only [packTodo] at he
    by_cases hov : 1000 < (t ++ todoLine i q).data.length
    · rw [if_pos hov] at he
      rcases List.mem_cons.mp he with he1 | he2
      · subst he1
        simp only [mkTodoEmbed, List.mem_singleton] at hf
        subst hf
        exact ht
      · exact ih (i + 1) (todoLine i q) (cnt + 1) hline hrest e he2 f hf
    · rw [if_neg hov] at he
      exact ih (i + 1) (t ++ todoLine i q) cnt (Nat.le_of_not_lt hov) hrest e he f hf

/-- Packing loses nothing: the concatenation of all flushed block
texts is the running text followed by all remaining numbered lines. -/
theorem pack_concat (color tc : Nat) :
    ∀ (qs : List QuestionData) (i : Nat) (t : String) (cnt : Nat),
      joinVals (packTodo color tc qs i t cnt) = t ++ linesFrom i qs := by
  intro qs
  induction qs with
  | nil =>
    intro i t cnt
    simp only [packTodo, linesFrom]
    by_cases h : t ≠ ""
    · rw [if_pos h]
      simp [joinVals, joinStr, mkTodoEmbed, String.append_empty]
    · rw [if_neg h]
      simp only [ne_eq, not_not] at h
      subst h
      simp [joinVals, joinStr]
  | cons q rest ih =>
    intro i t cnt
    simp only [packTodo, linesFrom]
    by_cases hov : 1000 < (t ++ todoLine i q).data.length
    · rw [if_pos hov]
      have jc : ∀ (e : Embed) (es : List Embed),
          joinVals (e :: es)
            = joinStr (e.fields.map (fun f => f.value)) ++ joinVals es :=
        fun e es => rfl
      rw [jc, ih]
      simp [mkTodoEmbed, joinStr, String.append_empty, String.append_assoc]
    · rw [if_neg hov]
      rw [ih]
      rw [String.append_assoc]

/-- The source's slice-plus-conditional-ellipsis equals the
truncated-iff-longer-than-60 reading. -/
theorem strTrunc_eq (t : String) : strTrunc t = truncSpec t := by
  unfold strTrunc truncSpec
  by_cases h : 60 < t.data.length
  · rw [if_pos h, if_pos h]
  · rw [if_neg h, if_neg h, List.take_of_length_le (Nat.le_of_not_lt h),
        String.append_empty, strMk_data]

/-- With at least one done entry, the recently-completed text is
non-empty (each emitted line opens with a strikethrough delimiter). -/
theorem doneTextOf_ne (r : AggregateResult) (h : r.done_questions ≠ []) :
    doneTextOf r ≠ "" := by
  have hl : lastN 3 r.done_questions ≠ [] := by
    have h1 : 0 < r.done_questions.length := List.length_pos.mpr h
    have h2 : 0 < (lastN 3 r.done_questions).length := by
      unfold lastN
      rw [List.length_drop]
      omega
    exact List.length_pos.mp h2
  obtain ⟨a, as, ha⟩ := List.exists_cons_of_ne_nil hl
  unfold doneTextOf
  rw [ha]
  simp only [List.map_cons, joinStr]
  intro hcontr
  have hd := (str_eq_empty_iff _).mp hcontr
  rw [String.data_append, String.data_append, String.data_append] at hd
  have h2 : ("~~" : String).data = ['~', '~'] := rfl
  rw [h2] at hd
  simp at hd

/-! ## Claim theorems -/

/-- Claim C1: for a produced record, the formatting inspector decides
first — whenever it fires, `formatting_source` is `api_formatting` and
the record is crossed out whatever the text says; the text marker
analyzer determines the outcome (and the `manual_indicators` tag is
used) only when the inspector returned false. -/
theorem claim_C1 (formatting_data : FormattingData) (col row_index : Nat)
    (cell : String) :
    (check_cell_strikethrough formatting_data "Questions" row_index col = true →
      (mkRecord formatting_data col row_index cell).formatting_source
          = "api_formatting" ∧
      (mkRecord formatting_data col row_index cell).is_crossed_out = true) ∧
    (check_cell_strikethrough formatting_data "Questions" row_index col = false →
      (mkRecord formatting_data col row_index cell).formatting_source
          = "manual_indicators" ∧
      (mkRecord formatting_data col row_index cell).is_crossed_out
          = analyze_text_with_manual_indicators (.ofStr cell)) := by
  unfold mkRecord
  constructor
  · intro h
    simp [h]
  · intro h
    simp [h]

/-- Witness for claim C1: a struck-through cell whose text also
carries manual markers is tagged `api_formatting`. -/
theorem claim_C1_witness :
    check_cell_strikethrough docQStrike "Questions" 1 0 = true ∧
    (mkRecord docQStrike 0 1 "~~x~~ [DONE] ~~y~~").formatting_source
        = "api_formatting" ∧
    (mkRecord docQStrike 0 1 "~~x~~ [DONE] ~~y~~").is_crossed_out = true ∧
    analyze_text_with_manual_indicators (.ofStr "~~x~~ [DONE] ~~y~~") = true := by
  refine ⟨by decide, ?_, ?_, by decide⟩
  · exact ((claim_C1 docQStrike 0 1 "~~x~~ [DONE] ~~y~~").1 (by decide)).1
  · exact ((claim_C1 docQStrike 0 1 "~~x~~ [DONE] ~~y~~").1 (by decide)).2

/-- Claim C4: `check_cell_strikethrough` is total over arbitrary
partially-populated documents — by construction no input raises (the
modelled handler maps the scan's exception to false), and whenever no
reachable cell carries the flag (sheet absent, malformed entry, row or
column out of bounds, or missing keys defaulting to no signal) it
returns false. -/
theorem claim_C4 (doc : FormattingData) (sheet_name : String)
    (row_index col_index : Nat)
    (h : (cellAt sheet_name row_index col_index doc.sheets).elim false cellFlag
          = false) :
    check_cell_strikethrough doc sheet_name row_index col_index = false := by
  rw [check_eq]
  exact h

/-- Witness for claim C4: a document whose only sheet entry lacks the
`properties` key (the lookup raises) yields false even though its grid
data holds a struck cell. -/
theorem claim_C4_witness :
    (cellAt "Questions" 0 0 docBadProps.sheets).elim false cellFlag = false ∧
    check_cell_strikethrough docBadProps "Questions" 0 0 = false :=
  ⟨by decide, claim_C4 docBadProps "Questions" 0 0 (by decide)⟩

/-- Claim C5: for a cell present in the formatting document, any one
of the three sources carrying the strikethrough flag makes
`check_cell_strikethrough` return true, regardless of the others. -/
theorem claim_C5 (doc : FormattingData) (sheet_name : String)
    (row_index col_index : Nat) (cell : CellData)
    (h1 : cellAt sheet_name row_index col_index doc.sheets = some cell)
    (h2 : fmtStrike cell.effectiveFormat = true
        ∨ fmtStrike cell.userEnteredFormat = true
        ∨ cell.textFormatRuns.any runFlag = true) :
    check_cell_strikethrough doc sheet_name row_index col_index = true := by
  rw [check_eq, h1]
  show cellFlag cell = true
  unfold cellFlag
  rcases h2 with h | h | h <;> simp [h]

/-- Witness for claim C5: effective-format strikethrough alone, with
the other two sources absent, is reported. -/
theorem claim_C5_witness :
    cellAt "Questions" 0 0 docEffOnly.sheets = some strikedCell ∧
    fmtStrike strikedCell.effectiveFormat = true ∧
    check_cell_strikethrough docEffOnly "Questions" 0 0 = true :=
  ⟨by decide, by decide,
   claim_C5 docEffOnly "Questions" 0 0 strikedCell (by decide)
     (Or.inl (by decide))⟩

/-- Claim C6: the analyzer rejects non-string and empty input, and
accepts every string holding two or more `~~` delimiters (in Python's
non-overlapping count), independently of the marker vocabulary. -/
theorem claim_C6 :
    analyze_text_with_manual_indicators .nonString = false ∧
    analyze_text_with_manual_indicators (.ofStr "") = false ∧
    ∀ s : String, 2 ≤ tildeCount s.data →
      analyze_text_with_manual_indicators (.ofStr s) = true := by
  refine ⟨rfl, rfl, ?_⟩
  intro s h
  by_cases hs : s = ""
  · subst hs
    exact absurd h (by decide)
  · show (if s = "" then false
          else
            if completion_indicators.any
                (fun ind => containsSubL (pyStrip (pyUpper s)).data ind.data)
            then true
            else if 2 ≤ tildeCount s.data then true else false) = true
    rw [if_neg hs]
    by_cases hany : completion_indicators.any
        (fun ind => containsSubL (pyStrip (pyUpper s)).data ind.data) = true
    · simp [hany]
    · simp only [Bool.not_eq_true] at hany
      simp [hany, if_pos h]

/-- Witness for claim C6: a double delimiter with no vocabulary
marker is accepted. -/
theorem claim_C6_witness :
    2 ≤ tildeCount ("~~alpha~~ beta".data) ∧
    analyze_text_with_manual_indicators (.ofStr "~~alpha~~ beta") = true :=
  ⟨by decide, claim_C6.2.2 "~~alpha~~ beta" (by decide)⟩

/-- Shape of the extractor's success result once the column resolves. -/
theorem extractCore_success (values : List (List String))
    (fd : FormattingData) (col : Nat)
    (h : findG4 (values.headD []) 0 = some col) :
    extractCore values fd =
      { status := "success", message := none,
        group4_column_index := some (col + 1),
        total_questions := (rowRecords fd col (values.drop 1) 1).length,
        done_count := some ((rowRecords fd col (values.drop 1) 1).filter
          (fun q => q.is_crossed_out)).length,
        todo_count := some ((rowRecords fd col (values.drop 1) 1).filter
          (fun q => !q.is_crossed_out)).length,
        has_new_questions := decide (0 < ((rowRecords fd col (values.drop 1) 1).filter
          (fun q => !q.is_crossed_out)).length),
        done_questions := (rowRecords fd col (values.drop 1) 1).filter
          (fun q => q.is_crossed_out),
        todo_questions := (rowRecords fd col (values.drop 1) 1).filter
          (fun q => !q.is_crossed_out),
        all_questions := some (rowRecords fd col (values.drop 1) 1) } := by
  unfold extractCore
  rw [h]

/-- A parser result with success status comes from a fetched grid
whose column resolved, and equals the extractor's result on it. -/
theorem parse_success_shape (cred : Option String) (outcome : AccessOutcome)
    (h : (parse_group4_questions cred outcome).status = "success") :
    ∃ values fd col, outcome = .fetched values fd ∧
      findG4 (values.headD []) 0 = some col ∧
      parse_group4_questions cred outcome = extractCore values fd := by
  cases hcb : pyTruthy cred with
  | false =>
    exfalso
    unfold parse_group4_questions at h
    rw [hcb] at h
    simp [errorResult] at h
  | true =>
    cases outcome with
    | raised msg =>
      exfalso
      unfold parse_group4_questions at h
      rw [hcb] at h
      simp [errorResult] at h
    | fetched values fd =>
      by_cases hv : values = []
      · exfalso
        unfold parse_group4_questions at h
        rw [hcb] at h
        simp [hv, errorResult] at h
      · have hp : parse_group4_questions cred (.fetched values fd)
            = extractCore values fd := by
          unfold parse_group4_questions
          rw [hcb]
          simp [hv]
        rw [hp] at h
        cases hg : findG4 (values.headD []) 0 with
        | none =>
          exfalso
          unfold extractCore at h
          rw [hg] at h
          simp [errorResult] at h
        | some col =>
          exact ⟨values, fd, col, rfl, hg, hp⟩

/-- Claim C8: on every success result, `has_new_questions` holds
exactly when the todo list is non-empty (equivalently, the todo count
is positive); the parser takes no prior-run state at all, so no
diffing against earlier results is involved. -/
theorem claim_C8 (credentials_json : Option String) (outcome : AccessOutcome)
    (h : (parse_group4_questions credentials_json outcome).status = "success") :
    ((parse_group4_questions credentials_json outcome).has_new_questions = true
      ↔ (parse_group4_questions credentials_json outcome).todo_questions ≠ []) ∧
    ((parse_group4_questions credentials_json outcome).has_new_questions = true
      ↔ ∃ n, (parse_group4_questions credentials_json outcome).todo_count = some n
          ∧ 0 < n) := by
  obtain ⟨values, fd, col, _, hg, hp⟩ :=
    parse_success_shape credentials_json outcome h
  rw [hp, extractCore_success values fd col hg]
  constructor
  · simp [List.length_pos]
  · simp

/-- Witness for claim C8: a run with two unfinished entries. -/
theorem claim_C8_witness :
    (parse_group4_questions (some "creds")
      (.fetched valsTwoTodo emptyDoc)).status = "success" ∧
    (((parse_group4_questions (some "creds")
        (.fetched valsTwoTodo emptyDoc)).has_new_questions = true
      ↔ (parse_group4_questions (some "creds")
          (.fetched valsTwoTodo emptyDoc)).todo_questions ≠ []) ∧
     ((parse_group4_questions (some "creds")
        (.fetched valsTwoTodo emptyDoc)).has_new_questions = true
      ↔ ∃ n, (parse_group4_questions (some "creds")
          (.fetched valsTwoTodo emptyDoc)).todo_count = some n ∧ 0 < n)) :=
  ⟨by decide, claim_C8 (some "creds") (.fetched valsTwoTodo emptyDoc) (by decide)⟩

/-- Claim C9: on a success run, a record exists exactly for the data
rows (grid index at least 1) whose target-column cell is in bounds and
trims to non-blank; the record's text is the trimmed cell and its
`row_number` is the grid index plus one. -/
theorem claim_C9 (values : List (List String))
    (formatting_data : FormattingData) (col : Nat)
    (h : findG4 (values.headD []) 0 = some col) :
    (extractCore values formatting_data).status = "success" ∧
    ∀ q : QuestionData,
      q ∈ (extractCore values formatting_data).all_questions.getD [] ↔
        ∃ i row cell, 1 ≤ i ∧ values.get? i = some row ∧
          row.get? col = some cell ∧ pyStrip cell ≠ "" ∧
          q = mkRecord formatting_data col i cell ∧
          q.text = pyStrip cell ∧ q.row_number = i + 1 := by
  rw [extractCore_success values formatting_data col h]
  refine ⟨rfl, ?_⟩
  intro q
  show q ∈ rowRecords formatting_data col (values.drop 1) 1 ↔ _
  rw [mem_rowRecords]
  constructor
  · rintro ⟨j, row, cell, h1, h2, h3, h4⟩
    refine ⟨1 + j, row, cell, by omega, ?_, h2, h3.2, h4, ?_, ?_⟩
    · rw [← List.get?_drop values 1 j]
      exact h1
    · rw [h4]
      rfl
    · rw [h4]
      rfl
  · rintro ⟨i, row, cell, hi, h1, h2, h3, h4, _, _⟩
    refine ⟨i - 1, row, cell, ?_, h2, (guard_iff cell).mpr h3, ?_⟩
    · rw [List.get?_drop values 1 (i - 1)]
      have harith : 1 + (i - 1) = i := by omega
      rw [harith]
      exact h1
    · have harith : 1 + (i - 1) = i := by omega
      rw [harith]
      exact h4

/-- Witness for claim C9: mixed grid with trimming, an empty cell and
a marker-struck cell. -/
theorem claim_C9_witness :
    (extractCore valsMixed emptyDoc).status = "success" ∧
    ∀ q : QuestionData,
      q ∈ (extractCore valsMixed emptyDoc).all_questions.getD [] ↔
        ∃ i row cell, 1 ≤ i ∧ valsMixed.get? i = some row ∧
          row.get? 0 = some cell ∧ pyStrip cell ≠ "" ∧
          q = mkRecord emptyDoc 0 i cell ∧
          q.text = pyStrip cell ∧ q.row_number = i + 1 :=
  claim_C9 valsMixed emptyDoc 0 (by decide)

/-- Claim C10: over every parser result, the composer's blue branch is
dead — red on error, orange on a non-empty todo list, green on an
empty one. -/
theorem claim_C10 (credentials_json : Option String) (outcome : AccessOutcome) :
    chooseColor (parse_group4_questions credentials_json outcome) ≠ 0x0099FF ∧
    chooseColor (parse_group4_questions credentials_json outcome)
      = (if (parse_group4_questions credentials_json outcome).status ≠ "success"
         then 0xFF0000
         else if (parse_group4_questions credentials_json outcome).todo_questions ≠ []
         then 0xFF9900
         else 0x00FF00) := by
  cases hcb : pyTruthy credentials_json with
  | false =>
    have hp : parse_group4_questions credentials_json outcome
        = errorResult "Google credentials required for formatting detection" := by
      unfold parse_group4_questions
      rw [hcb]
      rfl
    rw [hp]
    exact ⟨by show (0xFF0000 : Nat) ≠ 0x0099FF ; decide, rfl⟩
  | true =>
    cases outcome with
    | raised msg =>
      have hp : parse_group4_questions credentials_json (.raised msg)
          = errorResult ("Error accessing sheet: " ++ msg) := by
        unfold parse_group4_questions
        rw [hcb]
        rfl
      rw [hp]
      exact ⟨by show (0xFF0000 : Nat) ≠ 0x0099FF ; decide, rfl⟩
    | fetched values fd =>
      by_cases hv : values = []
      · subst hv
        have hp : parse_group4_questions credentials_json (.fetched [] fd)
            = errorResult "No data found in Questions sheet" := by
          unfold parse_group4_questions
          rw [hcb]
          rfl
        rw [hp]
        exact ⟨by show (0xFF0000 : Nat) ≠ 0x0099FF ; decide, rfl⟩
      · have hp : parse_group4_questions credentials_json (.fetched values fd)
            = extractCore values fd := by
          unfold parse_group4_questions
          rw [hcb]
          simp [hv]
        rw [hp]
        cases hg : findG4 (values.headD []) 0 with
        | none =>
          have he : extractCore values fd
              = errorResult "Group 4 column not found" := by
            unfold extractCore
            rw [hg]
          rw [he]
          exact ⟨by show (0xFF0000 : Nat) ≠ 0x0099FF ; decide, rfl⟩
        | some col =>
          rw [extractCore_success values fd col hg]
          cases hL : (rowRecords fd col (values.drop 1) 1).filter
              (fun q => !q.is_crossed_out) with
          | nil => exact ⟨by simp [chooseColor], by simp [chooseColor]⟩
          | cons a as => exact ⟨by simp [chooseColor], by simp [chooseColor]⟩

/-- Counterexample to claim C2 as stated: at a concrete input whose
header lacks the column, the error result has `status=error` and an
explanatory message, but its done/todo count keys are absent (`none`),
not present as zero. -/
theorem claim_C2_counterexample :
    (parse_group4_questions (some "creds") (.fetched valsNoG4 emptyDoc)).status
        = "error" ∧
    (parse_group4_questions (some "creds") (.fetched valsNoG4 emptyDoc)).message
        = some "Group 4 column not found" ∧
    (parse_group4_questions (some "creds") (.fetched valsNoG4 emptyDoc)).done_count
        = none ∧
    (parse_group4_questions (some "creds") (.fetched valsNoG4 emptyDoc)).todo_count
        = none ∧
    (parse_group4_questions (some "creds") (.fetched valsNoG4 emptyDoc)).done_count
        ≠ some 0 := by
  decide

/-- Claim C2 (amended): an exception while contacting the source, or
an unresolvable column, yields `status=error` with a human-readable
message (naming the column when unresolvable), empty list fields, zero
`total_questions`, false `has_new_questions` — and the `done_count` /
`todo_count` keys absent rather than present as zero. -/
theorem claim_C2 (credentials_json : Option String) (msg : String)
    (values : List (List String)) (formatting_data : FormattingData)
    (hc : pyTruthy credentials_json = true)
    (hv : values ≠ [])
    (hcol : findG4 (values.headD []) 0 = none) :
    ((parse_group4_questions credentials_json (.raised msg)).status = "error" ∧
     (parse_group4_questions credentials_json (.raised msg)).message
        = some ("Error accessing sheet: " ++ msg) ∧
     (parse_group4_questions credentials_json (.raised msg)).done_questions = [] ∧
     (parse_group4_questions credentials_json (.raised msg)).todo_questions = [] ∧
     (parse_group4_questions credentials_json (.raised msg)).all_questions = none ∧
     (parse_group4_questions credentials_json (.raised msg)).total_questions = 0 ∧
     (parse_group4_questions credentials_json (.raised msg)).done_count = none ∧
     (parse_group4_questions credentials_json (.raised msg)).todo_count = none ∧
     (parse_group4_questions credentials_json (.raised msg)).has_new_questions
        = false) ∧
    ((parse_group4_questions credentials_json
        (.fetched values formatting_data)).status = "error" ∧
     (parse_group4_questions credentials_json
        (.fetched values formatting_data)).message
        = some "Group 4 column not found" ∧
     (parse_group4_questions credentials_json
        (.fetched values formatting_data)).done_questions = [] ∧
     (parse_group4_questions credentials_json
        (.fetched values formatting_data)).todo_questions = [] ∧
     (parse_group4_questions credentials_json
        (.fetched values formatting_data)).all_questions = none ∧
     (parse_group4_questions credentials_json
        (.fetched values formatting_data)).total_questions = 0 ∧
     (parse_group4_questions credentials_json
        (.fetched values formatting_data)).done_count = none ∧
     (parse_group4_questions credentials_json
        (.fetched values formatting_data)).todo_count = none ∧
     (parse_group4_questions credentials_json
        (.fetched values formatting_data)).has_new_questions = false) := by
  have hp1 : parse_group4_questions credentials_json (.raised msg)
      = errorResult ("Error accessing sheet: " ++ msg) := by
    unfold parse_group4_questions
    rw [hc]
    rfl
  have hp2 : parse_group4_questions credentials_json
      (.fetched values formatting_data)
      = errorResult "Group 4 column not found" := by
    unfold parse_group4_questions
    rw [hc]
    show (if values = [] then errorResult "No data found in Questions sheet"
          else extractCore values formatting_data)
        = errorResult "Group 4 column not found"
    rw [if_neg hv]
    unfold extractCore
    rw [hcol]
  rw [hp1, hp2]
  exact ⟨⟨rfl, rfl, rfl, rfl, rfl, rfl, rfl, rfl, rfl⟩,
         ⟨rfl, rfl, rfl, rfl, rfl, rfl, rfl, rfl, rfl⟩⟩

/-- Witness for amended claim C2 at a concrete exception message and a
concrete column-free grid. -/
theorem claim_C2_witness :
    ((parse_group4_questions (some "creds") (.raised "boom")).status = "error" ∧
     (parse_group4_questions (some "creds") (.raised "boom")).message
        = some ("Error accessing sheet: " ++ "boom") ∧
     (parse_group4_questions (some "creds") (.raised "boom")).done_questions = [] ∧
     (parse_group4_questions (some "creds") (.raised "boom")).todo_questions = [] ∧
     (parse_group4_questions (some "creds") (.raised "boom")).all_questions = none ∧
     (parse_group4_questions (some "creds") (.raised "boom")).total_questions = 0 ∧
     (parse_group4_questions (some "creds") (.raised "boom")).done_count = none ∧
     (parse_group4_questions (some "creds") (.raised "boom")).todo_count = none ∧
     (parse_group4_questions (some "creds") (.raised "boom")).has_new_questions
        = false) ∧
    ((parse_group4_questions (some "creds")
        (.fetched valsNoG4 emptyDoc)).status = "error" ∧
     (parse_group4_questions (some "creds")
        (.fetched valsNoG4 emptyDoc)).message
        = some "Group 4 column not found" ∧
     (parse_group4_questions (some "creds")
        (.fetched valsNoG4 emptyDoc)).done_questions = [] ∧
     (parse_group4_questions (some "creds")
        (.fetched valsNoG4 emptyDoc)).todo_questions = [] ∧
     (parse_group4_questions (some "creds")
        (.fetched valsNoG4 emptyDoc)).all_questions = none ∧
     (parse_group4_questions (some "creds")
        (.fetched valsNoG4 emptyDoc)).total_questions = 0 ∧
     (parse_group4_questions (some "creds")
        (.fetched valsNoG4 emptyDoc)).done_count = none ∧
     (parse_group4_questions (some "creds")
        (.fetched valsNoG4 emptyDoc)).todo_count = none ∧
     (parse_group4_questions (some "creds")
        (.fetched valsNoG4 emptyDoc)).has_new_questions = false) :=
  claim_C2 (some "creds") "boom" valsNoG4 emptyDoc (by decide) (by decide)
    (by decide)

set_option maxRecDepth 100000 in
/-- Counterexample to claim C3 as stated: a success result whose
single todo entry is 1200 characters long produces a block whose todo
field exceeds 1000 characters (the numbered line itself crosses the
ceiling, spilling an oversized block). -/
theorem claim_C3_counterexample :
    (extractCore valsBigTodo emptyDoc).status = "success" ∧
    (extractCore valsBigTodo emptyDoc).todo_questions ≠ [] ∧
    (todoEmbeds (extractCore valsBigTodo emptyDoc)).any
      (fun e => e.fields.any (fun f => decide (1000 < f.value.data.length)))
        = true := by
  refine ⟨by decide, by decide, by decide⟩

/-- Claim C3 (amended): on a success result with a non-empty todo
list, provided each numbered entry line is itself at most 1000
characters, the composer appends the todo blocks after the main embed,
no block's todo field exceeds 1000 characters, and the concatenation
of the block texts is exactly the concatenation of the numbered entry
lines in original order (every entry once, untruncated). -/
theorem claim_C3 (result : AggregateResult)
    (h1 : result.status = "success")
    (h2 : result.todo_questions ≠ [])
    (h3 : linesOK 1 result.todo_questions = true) :
    send_discord_embeds result = composeMain result :: todoEmbeds result ∧
    (∀ e ∈ todoEmbeds result, ∀ f ∈ e.fields, f.value.data.length ≤ 1000) ∧
    joinVals (todoEmbeds result) = linesFrom 1 result.todo_questions := by
  refine ⟨?_, ?_, ?_⟩
  · unfold send_discord_embeds
    rw [if_pos ⟨h1, h2⟩]
  · intro e he f hf
    exact pack_le (chooseColor result) (result.todo_count.getD 0)
      result.todo_questions 1 "" 1 (by decide) h3 e he f hf
  · unfold todoEmbeds
    rw [pack_concat (chooseColor result) (result.todo_count.getD 0)
      result.todo_questions 1 "" 1]
    exact String.empty_append _

/-- Witness for amended claim C3: two short todo entries fit one
block and are emitted once each, in order. -/
theorem claim_C3_witness :
    send_discord_embeds (extractCore valsTwoTodo emptyDoc)
        = composeMain (extractCore valsTwoTodo emptyDoc)
          :: todoEmbeds (extractCore valsTwoTodo emptyDoc) ∧
    (∀ e ∈ todoEmbeds (extractCore valsTwoTodo emptyDoc), ∀ f ∈ e.fields,
      f.value.data.length ≤ 1000) ∧
    joinVals (todoEmbeds (extractCore valsTwoTodo emptyDoc))
        = linesFrom 1 (extractCore valsTwoTodo emptyDoc).todo_questions :=
  claim_C3 (extractCore valsTwoTodo emptyDoc) (by decide) (by decide) (by decide)

/-- Counterexample to claim C7 as stated: on a concrete success result
with no done entries, the composer emits no recently-completed field
at all — in particular no placeholder appears anywhere. -/
theorem claim_C7_counterexample :
    (extractCore valsTwoTodo emptyDoc).status = "success" ∧
    (extractCore valsTwoTodo emptyDoc).done_questions = [] ∧
    (composeMain (extractCore valsTwoTodo emptyDoc)).fields.all
      (fun f => !(f.name == "‚úÖ Recently Completed")
        && !(f.value == "None")) = true := by
  decide

/-- Claim C7 (amended): on a success result, when done entries exist
the recently-completed field holds the last three of them in list
order, each text truncated to 60 characters with an ellipsis marker
exactly when longer than 60 and wrapped in strikethrough delimiters;
when no done entries exist the field is omitted entirely (the `None`
placeholder expression is unreachable). -/
theorem claim_C7 (result : AggregateResult) (h : result.status = "success") :
    (result.done_questions = [] →
      (composeMain result).fields.all
        (fun f => !(f.name == "‚úÖ Recently Completed")) = true) ∧
    (result.done_questions ≠ [] →
      (composeMain result).fields.filter
          (fun f => f.name == "‚úÖ Recently Completed")
        = [{ name := "‚úÖ Recently Completed",
             value := joinStr ((lastN 3 result.done_questions).map
               (fun q => "~~" ++ truncSpec q.text ++ "~~\n")),
             inlineFlag := false }]) := by
  have hA : (("üö® Alert" : String) == "‚úÖ Recently Completed") = false := by
    decide
  have hS : (("üìä Summary" : String) == "‚úÖ Recently Completed") = false := by
    decide
  have hR : (("‚úÖ Recently Completed" : String)
      == "‚úÖ Recently Completed") = true := by decide
  unfold composeMain
  rw [if_pos h]
  constructor
  · intro hd
    by_cases hn : result.has_new_questions
    · simp [hn, hd, hA, hS]
    · simp [hn, hd, hA, hS]
  · intro hd
    have hv := doneTextOf_ne result hd
    have hval : doneTextOf result
        = joinStr ((lastN 3 result.done_questions).map
            (fun q => "~~" ++ truncSpec q.text ++ "~~\n")) := by
      unfold doneTextOf
      simp only [strTrunc_eq]
    by_cases hn : result.has_new_questions
    · simp only [hn, if_true, hd, ne_eq, not_false_eq_true, if_pos hv]
      simp [List.filter, hA, hS, hR, hval]
    · simp only [hn, if_false, hd, ne_eq, not_false_eq_true, if_pos hv,
        Bool.false_eq_true]
      simp [List.filter, hA, hS, hR, hval]

/-- Witness for amended claim C7: two struck rows, 75 and 40
characters long, produce the truncated and untouched texts. -/
theorem claim_C7_witness :
    (extractCore valsTwoDone docTwoDone).status = "success" ∧
    (extractCore valsTwoDone docTwoDone).done_questions ≠ [] ∧
    (composeMain (extractCore valsTwoDone docTwoDone)).fields.filter
        (fun f => f.name == "‚úÖ Recently Completed")
      = [{ name := "‚úÖ Recently Completed",
           value := joinStr
             ((lastN 3 (extractCore valsTwoDone docTwoDone).done_questions).map
               (fun q => "~~" ++ truncSpec q.text ++ "~~\n")),
           inlineFlag := false }] :=
  ⟨by decide, by decide,
   (claim_C7 (extractCore valsTwoDone docTwoDone) (by decide)).2 (by decide)⟩
